import Mathlib

/-!
# Verification of the configuration-loading module `configsettings.py`

Shallow embedding of the module's data model and operations.

Modelling conventions:
* The ambient environment (`os.getenv`) is an explicit snapshot
  `Env := String → Option String`.
* The filesystem existence check (`os.path.exists`) is an explicit snapshot
  `String → Bool` passed to the storage-config constructor.
* Python `float` values are modelled as `ℚ`; Python `int` as `Int`;
  `Optional[str]` as `Option String`.
* Exceptions are modelled by `Except ConfigError _`, with one `ConfigError`
  variant per error site, named after the specification's error taxonomy
  (the Python code raises `FileNotFoundError` / `ValueError` / `KeyError`
  at the corresponding sites).
-/

deriving instance DecidableEq for Except

/-- The error taxonomy of the module, one variant per raise site. -/
inductive ConfigError where
  | MissingCredentialFile
  | EmptyProjectId
  | UnknownMode
  | InvalidNumericValue
  | OutOfRangeStopLoss
  | NonPositiveTakeProfit
  | NonPositivePositionSize
deriving DecidableEq, Repr

/-- An environment snapshot: `env k = some v` when variable `k` is set to
`v`, `none` when absent (Python `os.getenv(k)` returning `None`). -/
abbrev Env := String → Option String

/-- Python `os.getenv(k, d)`: the variable's value, or the default `d` when
the variable is absent. -/
def getenvD (env : Env) (k d : String) : String :=
  (env k).getD d

/-- `class TradingMode(Enum)`: members `PAPER`, `LIVE`, `BACKTEST`. -/
inductive TradingMode where
  | PAPER
  | LIVE
  | BACKTEST
deriving DecidableEq, Repr

/-- The `Enum` member values: `PAPER = "paper"`, `LIVE = "live"`,
`BACKTEST = "backtest"`. -/
def TradingMode.value : TradingMode → String
  | .PAPER => "paper"
  | .LIVE => "live"
  | .BACKTEST => "backtest"

/-- Python `TradingMode[s]`: lookup of an enum member by NAME (exact,
case-sensitive).  `none` models the `KeyError` raised on any other string,
reported as `UnknownMode` by the loader. -/
def tradingModeFromName (s : String) : Option TradingMode :=
  if s = "PAPER" then some .PAPER
  else if s = "LIVE" then some .LIVE
  else if s = "BACKTEST" then some .BACKTEST
  else none

/-! ## String-to-number coercion

Models of Python's built-in `int(s)` and `float(s)` restricted to plain
decimal notation (optional sign, digits, and for `float` an optional
decimal point), which covers every default and every value this module
reads.  Exponents, `inf`/`nan` and surrounding whitespace are outside the
modelled fragment. -/

/-- Value of a list of decimal digit characters, most significant first. -/
def digitsVal (l : List Char) : Nat :=
  l.foldl (fun a c => a * 10 + (c.toNat - 48)) 0

/-- A non-empty all-digit character list parses to its value. -/
def parseNatDigits (l : List Char) : Option Nat :=
  if l ≠ [] ∧ l.all Char.isDigit = true then some (digitsVal l) else none

/-- Strip one optional leading sign; `true` means negative. -/
def splitSign : List Char → Bool × List Char
  | '-' :: t => (true, t)
  | '+' :: t => (false, t)
  | t => (false, t)

/-- Model of Python `int(s)` on decimal literals: optional sign followed by
one or more digits; anything else raises `ValueError` (`none` here). -/
def parseInt (s : String) : Option Int :=
  let p := splitSign s.toList
  (parseNatDigits p.2).map fun n => if p.1 then -(n : Int) else (n : Int)

/-- Model of Python `float(s)` on decimal literals: optional sign, then
either `digits`, `digits.digits`, `digits.` or `.digits`; anything else
raises `ValueError` (`none` here).  The value of `±ip.fp` is the rational
`± (ip * 10 ^ |fp| + fp) / 10 ^ |fp|`, built with `mkRat`. -/
def parseFloat (s : String) : Option ℚ :=
  let p := splitSign s.toList
  let mag : Option (Nat × Nat) :=
    match p.2.span (fun c => c != '.') with
    | (ip, []) => (parseNatDigits ip).map fun n => (n, 1)
    | (ip, _ :: fp) =>
        if ip.all Char.isDigit = true ∧ fp.all Char.isDigit = true ∧
            (ip ≠ [] ∨ fp ≠ []) then
          some (digitsVal ip * 10 ^ fp.length + digitsVal fp, 10 ^ fp.length)
        else none
  mag.map fun nd => mkRat (if p.1 then -(nd.1 : Int) else (nd.1 : Int)) nd.2

/-! ## FirebaseConfig -/

/-- `@dataclass FirebaseConfig`: fields `project_id`, `credentials_path`,
`collection_name` (default `"sentiment_trading"`). -/
structure FirebaseConfig where
  project_id : String
  credentials_path : String
  collection_name : String
deriving DecidableEq, Repr

/-- The dataclass default for `collection_name`. -/
def defaultCollectionName : String := "sentiment_trading"

/-- `FirebaseConfig(...)` including `__post_init__`: raises
`FileNotFoundError` (`MissingCredentialFile`) when `credentials_path` does
not exist in the filesystem snapshot `pathExists`, then `ValueError`
(`EmptyProjectId`) when `project_id` is falsy, i.e. the empty string. -/
def mkFirebaseConfig (pathExists : String → Bool)
    (project_id credentials_path collection_name : String) :
    Except ConfigError FirebaseConfig :=
  if pathExists credentials_path = false then
    .error .MissingCredentialFile
  else if project_id = "" then
    .error .EmptyProjectId
  else
    .ok ⟨project_id, credentials_path, collection_name⟩

/-- The project id the aggregate loader passes to `FirebaseConfig`:
`os.getenv("FIREBASE_PROJECT_ID", "")`. -/
def resolvedProjectId (env : Env) : String :=
  getenvD env "FIREBASE_PROJECT_ID" ""

/-- The credentials path the aggregate loader passes to `FirebaseConfig`:
`os.getenv("FIREBASE_CREDENTIALS_PATH", "./firebase_credentials.json")`. -/
def resolvedCredPath (env : Env) : String :=
  getenvD env "FIREBASE_CREDENTIALS_PATH" "./firebase_credentials.json"

/-- The `self.firebase = FirebaseConfig(...)` step of
`SentimentTradingConfig.__init__`: `collection_name` is not supplied, so
the dataclass default applies. -/
def loadFirebase (pathExists : String → Bool) (env : Env) :
    Except ConfigError FirebaseConfig :=
  mkFirebaseConfig pathExists (resolvedProjectId env) (resolvedCredPath env)
    defaultCollectionName

/-! ## TradingConfig -/

/-- `@dataclass TradingConfig`: mode plus five numeric fields.  The
dataclass has no `__post_init__`, so construction is the plain record
constructor with no checks. -/
structure TradingConfig where
  mode : TradingMode
  max_position_size : ℚ
  stop_loss_pct : ℚ
  take_profit_pct : ℚ
  sentiment_threshold : ℚ
  cooloff_period : Int
deriving DecidableEq, Repr

/-- `TradingConfig.validate`: raises (`.error`) on the first violated
bound — stop-loss range, then take-profit positivity, then position-size
positivity — otherwise returns normally (`.ok ()`). -/
def TradingConfig.validate (c : TradingConfig) : Except ConfigError Unit :=
  if c.stop_loss_pct ≤ 0 ∨ c.stop_loss_pct ≥ 1 then
    .error .OutOfRangeStopLoss
  else if c.take_profit_pct ≤ 0 then
    .error .NonPositiveTakeProfit
  else if c.max_position_size ≤ 0 then
    .error .NonPositivePositionSize
  else
    .ok ()

/-- The `self.trading = TradingConfig(...)` step of
`SentimentTradingConfig.__init__`.  Python evaluates the keyword arguments
left to right, so the enum lookup happens first and each numeric coercion
follows in field order; the first failure propagates. -/
def loadTrading (env : Env) : Except ConfigError TradingConfig :=
  match tradingModeFromName (getenvD env "TRADING_MODE" "PAPER") with
  | none => .error .UnknownMode
  | some mode =>
    match parseFloat (getenvD env "MAX_POSITION_SIZE" "10000") with
    | none => .error .InvalidNumericValue
    | some mps =>
      match parseFloat (getenvD env "STOP_LOSS_PCT" "0.02") with
      | none => .error .InvalidNumericValue
      | some slp =>
        match parseFloat (getenvD env "TAKE_PROFIT_PCT" "0.05") with
        | none => .error .InvalidNumericValue
        | some tpp =>
          match parseFloat (getenvD env "SENTIMENT_THRESHOLD" "0.7") with
          | none => .error .InvalidNumericValue
          | some st =>
            match parseInt (getenvD env "COOLOFF_PERIOD" "300") with
            | none => .error .InvalidNumericValue
            | some cp => .ok ⟨mode, mps, slp, tpp, st, cp⟩

/-! ## APIConfig -/

/-- `@dataclass APIConfig`: two optional credential strings and three
integer limits. -/
structure APIConfig where
  twitter_bearer_token : Option String
  news_api_key : Option String
  rate_limit_per_minute : Int
  retry_attempts : Int
  timeout_seconds : Int
deriving DecidableEq, Repr

/-- `APIConfig.has_twitter_access = bool(self.twitter_bearer_token)`:
`False` for `None` and for the empty string, `True` otherwise. -/
def APIConfig.has_twitter_access (c : APIConfig) : Bool :=
  match c.twitter_bearer_token with
  | none => false
  | some s => s ≠ ""

/-- `APIConfig.has_news_access = bool(self.news_api_key)`. -/
def APIConfig.has_news_access (c : APIConfig) : Bool :=
  match c.news_api_key with
  | none => false
  | some s => s ≠ ""

/-- The `self.api = APIConfig(...)` step of
`SentimentTradingConfig.__init__`: the two credentials are read with
`os.getenv` with no default (absent key gives `None`, never an error);
the three integer fields are coerced with `int(...)` in field order. -/
def loadAPI (env : Env) : Except ConfigError APIConfig :=
  match parseInt (getenvD env "RATE_LIMIT_PER_MINUTE" "60") with
  | none => .error .InvalidNumericValue
  | some rl =>
    match parseInt (getenvD env "RETRY_ATTEMPTS" "3") with
    | none => .error .InvalidNumericValue
    | some ra =>
      match parseInt (getenvD env "TIMEOUT_SECONDS" "30") with
      | none => .error .InvalidNumericValue
      | some ts =>
        .ok ⟨env "TWITTER_BEARER_TOKEN", env "NEWS_API_KEY", rl, ra, ts⟩

/-! ## SentimentTradingConfig (the aggregate) -/

/-- The aggregate settings object: `self.firebase`, `self.trading`,
`self.api` as assigned by `SentimentTradingConfig.__init__`. -/
structure SentimentTradingConfig where
  firebase : FirebaseConfig
  trading : TradingConfig
  api : APIConfig
deriving DecidableEq, Repr

/-- `SentimentTradingConfig.__init__`: constructs the Firebase config,
then the trading config, then the API config; any exception propagates
immediately, so no partial aggregate is produced. -/
def loadConfig (pathExists : String → Bool) (env : Env) :
    Except ConfigError SentimentTradingConfig :=
  match loadFirebase pathExists env with
  | .error e => .error e
  | .ok fb =>
    match loadTrading env with
    | .error e => .error e
    | .ok tr =>
      match loadAPI env with
      | .error e => .error e
      | .ok ap => .ok ⟨fb, tr, ap⟩

/-! ## Helper lemmas -/

/-- Inversion: a successful `loadTrading` pins every field of the result to
the parse of its (resolved) environment string. -/
theorem loadTrading_ok_inv (env : Env) (c : TradingConfig)
    (h : loadTrading env = .ok c) :
    tradingModeFromName (getenvD env "TRADING_MODE" "PAPER") = some c.mode
  ∧ parseFloat (getenvD env "MAX_POSITION_SIZE" "10000") = some c.max_position_size
  ∧ parseFloat (getenvD env "STOP_LOSS_PCT" "0.02") = some c.stop_loss_pct
  ∧ parseFloat (getenvD env "TAKE_PROFIT_PCT" "0.05") = some c.take_profit_pct
  ∧ parseFloat (getenvD env "SENTIMENT_THRESHOLD" "0.7") = some c.sentiment_threshold
  ∧ parseInt (getenvD env "COOLOFF_PERIOD" "300") = some c.cooloff_period := by
  unfold loadTrading at h
  repeat' split at h
  all_goals cases h
  all_goals simp_all

/-- A successful mode lookup and five successful coercions determine the
result of `loadTrading`. -/
theorem loadTrading_ok_of (env : Env) (mode : TradingMode)
    (mps slp tpp st : ℚ) (cp : Int)
    (hm : tradingModeFromName (getenvD env "TRADING_MODE" "PAPER") = some mode)
    (h1 : parseFloat (getenvD env "MAX_POSITION_SIZE" "10000") = some mps)
    (h2 : parseFloat (getenvD env "STOP_LOSS_PCT" "0.02") = some slp)
    (h3 : parseFloat (getenvD env "TAKE_PROFIT_PCT" "0.05") = some tpp)
    (h4 : parseFloat (getenvD env "SENTIMENT_THRESHOLD" "0.7") = some st)
    (h5 : parseInt (getenvD env "COOLOFF_PERIOD" "300") = some cp) :
    loadTrading env = .ok ⟨mode, mps, slp, tpp, st, cp⟩ := by
  simp only [loadTrading, hm, h1, h2, h3, h4, h5]

/-- Inversion: a successful `loadAPI` pins every field of the result. -/
theorem loadAPI_ok_inv (env : Env) (a : APIConfig)
    (h : loadAPI env = .ok a) :
    a.twitter_bearer_token = env "TWITTER_BEARER_TOKEN"
  ∧ a.news_api_key = env "NEWS_API_KEY"
  ∧ parseInt (getenvD env "RATE_LIMIT_PER_MINUTE" "60") = some a.rate_limit_per_minute
  ∧ parseInt (getenvD env "RETRY_ATTEMPTS" "3") = some a.retry_attempts
  ∧ parseInt (getenvD env "TIMEOUT_SECONDS" "30") = some a.timeout_seconds := by
  unfold loadAPI at h
  repeat' split at h
  all_goals cases h
  all_goals simp_all

/-! ## Claim theorems -/

/-- Claim C1: for every `TradingConfig`, `validate` fails with
`OutOfRangeStopLoss` when `stop_loss_pct ≤ 0` or `≥ 1`; otherwise fails
with `NonPositiveTakeProfit` when `take_profit_pct ≤ 0`; otherwise fails
with `NonPositivePositionSize` when `max_position_size ≤ 0`; otherwise
returns normally — the checks happening in exactly that order, so the
error reported is the first violated bound. -/
theorem C1_validate_first_violation (c : TradingConfig) :
    ((c.stop_loss_pct ≤ 0 ∨ c.stop_loss_pct ≥ 1) →
        c.validate = .error .OutOfRangeStopLoss)
  ∧ (0 < c.stop_loss_pct → c.stop_loss_pct < 1 → c.take_profit_pct ≤ 0 →
        c.validate = .error .NonPositiveTakeProfit)
  ∧ (0 < c.stop_loss_pct → c.stop_loss_pct < 1 → 0 < c.take_profit_pct →
        c.max_position_size ≤ 0 →
        c.validate = .error .NonPositivePositionSize)
  ∧ (0 < c.stop_loss_pct → c.stop_loss_pct < 1 → 0 < c.take_profit_pct →
        0 < c.max_position_size → c.validate = .ok ()) := by
  unfold TradingConfig.validate
  refine ⟨fun h => by rw [if_pos h], fun h1 h2 h3 => ?_,
    fun h1 h2 h3 h4 => ?_, fun h1 h2 h3 h4 => ?_⟩
  · rw [if_neg (by rintro (hc | hc) <;> linarith), if_pos h3]
  · rw [if_neg (by rintro (hc | hc) <;> linarith), if_neg (not_le.mpr h3),
      if_pos h4]
  · rw [if_neg (by rintro (hc | hc) <;> linarith), if_neg (not_le.mpr h3),
      if_neg (not_le.mpr h4)]

/-- Witness for C1: each branch of the claim at a concrete configuration. -/
theorem C1_witness :
    (⟨.PAPER, 10000, 2, mkRat 1 20, mkRat 7 10, 300⟩ : TradingConfig).validate
        = .error .OutOfRangeStopLoss
  ∧ (⟨.PAPER, 10000, mkRat 1 50, 0, mkRat 7 10, 300⟩ : TradingConfig).validate
        = .error .NonPositiveTakeProfit
  ∧ (⟨.PAPER, -1, mkRat 1 50, mkRat 1 20, mkRat 7 10, 300⟩ :
        TradingConfig).validate = .error .NonPositivePositionSize
  ∧ (⟨.PAPER, 10000, mkRat 1 50, mkRat 1 20, mkRat 7 10, 300⟩ :
        TradingConfig).validate = .ok () :=
  ⟨(C1_validate_first_violation _).1 (Or.inr (by decide)),
   (C1_validate_first_violation _).2.1 (by decide) (by decide) (by decide),
   (C1_validate_first_violation _).2.2.1 (by decide) (by decide) (by decide)
     (by decide),
   (C1_validate_first_violation _).2.2.2 (by decide) (by decide) (by decide)
     (by decide)⟩

/-- Claim C2: storage-config construction fails with
`MissingCredentialFile` when the resolved credentials path does not exist,
(otherwise) fails with `EmptyProjectId` when the resolved project id is
empty, and succeeds only when neither condition holds. -/
theorem C2_storage_validation (pe : String → Bool) (env : Env) :
    (pe (resolvedCredPath env) = false →
        loadFirebase pe env = .error .MissingCredentialFile)
  ∧ (pe (resolvedCredPath env) = true → resolvedProjectId env = "" →
        loadFirebase pe env = .error .EmptyProjectId)
  ∧ (∀ fc, loadFirebase pe env = .ok fc →
        pe (resolvedCredPath env) = true ∧ resolvedProjectId env ≠ "") := by
  unfold loadFirebase mkFirebaseConfig
  refine ⟨fun h => by rw [if_pos h], fun h1 h2 => ?_, fun fc h => ?_⟩
  · rw [if_neg (by simp [h1]), if_pos h2]
  · constructor
    · by_contra hb
      rw [if_pos (by simpa using hb)] at h
      cases h
    · intro hid
      rcases hpe : pe (resolvedCredPath env) with _ | _
      · rw [if_pos hpe] at h; cases h
      · rw [if_neg (by simp [hpe]), if_pos hid] at h; cases h

/-- Witness for C2: a missing file and an empty project id, each reported
with the matching error. -/
theorem C2_witness :
    loadFirebase (fun _ => false) (fun _ => none)
        = .error .MissingCredentialFile
  ∧ loadFirebase (fun _ => true) (fun _ => none) = .error .EmptyProjectId :=
  ⟨(C2_storage_validation _ _).1 rfl,
   (C2_storage_validation _ _).2.1 rfl rfl⟩

/-- Claim C7: for every existing credentials path and non-empty project
id, storage-config construction succeeds, the resulting `project_id` and
`credentials_path` equal the inputs, and `collection_name` takes its
default when not supplied (as in the aggregate loader). -/
theorem C7_storage_success (pe : String → Bool) (env : Env)
    (pid cpath cname : String) :
    (pe cpath = true → pid ≠ "" →
        mkFirebaseConfig pe pid cpath cname = .ok ⟨pid, cpath, cname⟩)
  ∧ (pe (resolvedCredPath env) = true → resolvedProjectId env ≠ "" →
        loadFirebase pe env =
          .ok ⟨resolvedProjectId env, resolvedCredPath env,
                defaultCollectionName⟩) := by
  constructor
  · intro h1 h2
    unfold mkFirebaseConfig
    rw [if_neg (by simp [h1]), if_neg h2]
  · intro h1 h2
    unfold loadFirebase mkFirebaseConfig
    rw [if_neg (by simp [h1]), if_neg h2]

/-- Witness for C7: a concrete existing path and non-empty project id. -/
theorem C7_witness :
    mkFirebaseConfig (fun _ => true) "proj" "/tmp/cred.json" "col"
        = .ok ⟨"proj", "/tmp/cred.json", "col"⟩
  ∧ loadFirebase (fun _ => true)
        (fun k => if k = "FIREBASE_PROJECT_ID" then some "proj" else none)
      = .ok ⟨"proj", "./firebase_credentials.json", "sentiment_trading"⟩ :=
  ⟨(C7_storage_success (fun _ => true) (fun _ => none) "proj" "/tmp/cred.json"
      "col").1 rfl (by decide),
   (C7_storage_success (fun _ => true)
      (fun k => if k = "FIREBASE_PROJECT_ID" then some "proj" else none)
      "" "" "").2 rfl (by decide)⟩

/-- Claim C3: the loaded trading mode is `PAPER` when `TRADING_MODE` is
absent, matches the set value for each of the three enumerated names, and
every other set value makes loading fail with `UnknownMode`. -/
theorem C3_trading_mode (env : Env) :
    (env "TRADING_MODE" = none →
        ∀ c, loadTrading env = .ok c → c.mode = .PAPER)
  ∧ (env "TRADING_MODE" = some "PAPER" →
        ∀ c, loadTrading env = .ok c → c.mode = .PAPER)
  ∧ (env "TRADING_MODE" = some "LIVE" →
        ∀ c, loadTrading env = .ok c → c.mode = .LIVE)
  ∧ (env "TRADING_MODE" = some "BACKTEST" →
        ∀ c, loadTrading env = .ok c → c.mode = .BACKTEST)
  ∧ (∀ s, env "TRADING_MODE" = some s →
        s ≠ "PAPER" → s ≠ "LIVE" → s ≠ "BACKTEST" →
        loadTrading env = .error .UnknownMode) := by
  refine ⟨fun h c hc => ?_, fun h c hc => ?_, fun h c hc => ?_,
    fun h c hc => ?_, fun s hs h1 h2 h3 => ?_⟩
  · have hm := (loadTrading_ok_inv env c hc).1
    simp [getenvD, h, tradingModeFromName] at hm
    exact hm.symm
  · have hm := (loadTrading_ok_inv env c hc).1
    simp [getenvD, h, tradingModeFromName] at hm
    exact hm.symm
  · have hm := (loadTrading_ok_inv env c hc).1
    simp [getenvD, h, tradingModeFromName] at hm
    exact hm.symm
  · have hm := (loadTrading_ok_inv env c hc).1
    simp [getenvD, h, tradingModeFromName] at hm
    exact hm.symm
  · have hm : tradingModeFromName (getenvD env "TRADING_MODE" "PAPER")
        = none := by
      simp [getenvD, hs, tradingModeFromName, h1, h2, h3]
    simp only [loadTrading, hm]

/-- Witness for C3: `TRADING_MODE=LIVE` loads as `LIVE`;
`TRADING_MODE=FOO` fails with `UnknownMode`. -/
theorem C3_witness :
    (⟨.LIVE, 10000, mkRat 1 50, mkRat 1 20, mkRat 7 10, 300⟩ :
        TradingConfig).mode = .LIVE
  ∧ loadTrading (fun k => if k = "TRADING_MODE" then some "FOO" else none)
      = .error .UnknownMode :=
  ⟨(C3_trading_mode
      (fun k => if k = "TRADING_MODE" then some "LIVE" else none)).2.2.1
      (by decide) _ (by decide),
   (C3_trading_mode
      (fun k => if k = "TRADING_MODE" then some "FOO" else none)).2.2.2.2
      "FOO" (by decide) (by decide) (by decide) (by decide)⟩

/-- Claim C4: trading-config construction enforces no numeric bounds:
whenever the mode resolves and the five numeric strings coerce — to any
values whatsoever, in or out of range — construction succeeds and stores
exactly the coerced values; the bounds are the business of the separate
`validate` operation, which construction never invokes. -/
theorem C4_construction_unchecked (env : Env) (mode : TradingMode)
    (mps slp tpp st : ℚ) (cp : Int)
    (hm : tradingModeFromName (getenvD env "TRADING_MODE" "PAPER")
        = some mode)
    (h1 : parseFloat (getenvD env "MAX_POSITION_SIZE" "10000") = some mps)
    (h2 : parseFloat (getenvD env "STOP_LOSS_PCT" "0.02") = some slp)
    (h3 : parseFloat (getenvD env "TAKE_PROFIT_PCT" "0.05") = some tpp)
    (h4 : parseFloat (getenvD env "SENTIMENT_THRESHOLD" "0.7") = some st)
    (h5 : parseInt (getenvD env "COOLOFF_PERIOD" "300") = some cp) :
    loadTrading env = .ok ⟨mode, mps, slp, tpp, st, cp⟩
  ∧ (⟨mode, mps, slp, tpp, st, cp⟩ : TradingConfig).max_position_size = mps
  ∧ (⟨mode, mps, slp, tpp, st, cp⟩ : TradingConfig).stop_loss_pct = slp
  ∧ (⟨mode, mps, slp, tpp, st, cp⟩ : TradingConfig).take_profit_pct = tpp :=
  ⟨loadTrading_ok_of env mode mps slp tpp st cp hm h1 h2 h3 h4 h5,
   rfl, rfl, rfl⟩

/-- Witness for C4: out-of-range stop-loss `-3`, non-positive take-profit
`0` and non-positive position size `-1` are all accepted and stored
unchanged at construction. -/
theorem C4_witness :
    loadTrading (fun k =>
        if k = "MAX_POSITION_SIZE" then some "-1"
        else if k = "STOP_LOSS_PCT" then some "-3"
        else if k = "TAKE_PROFIT_PCT" then some "0"
        else none)
      = .ok ⟨.PAPER, -1, -3, 0, mkRat 7 10, 300⟩ :=
  (C4_construction_unchecked _ .PAPER (-1) (-3) 0 (mkRat 7 10) 300
    (by decide) (by decide) (by decide) (by decide) (by decide)
    (by decide)).1

/-- Claim C5: the aggregate constructor runs the storage loader, then the
trading loader, then the API loader; the first failure propagates as-is,
and an aggregate is produced exactly when all three succeed, composed of
their results — never a partial object. -/
theorem C5_aggregate_failfast (pe : String → Bool) (env : Env) :
    (∀ e, loadFirebase pe env = .error e → loadConfig pe env = .error e)
  ∧ (∀ fb e, loadFirebase pe env = .ok fb → loadTrading env = .error e →
        loadConfig pe env = .error e)
  ∧ (∀ fb tr e, loadFirebase pe env = .ok fb → loadTrading env = .ok tr →
        loadAPI env = .error e → loadConfig pe env = .error e)
  ∧ (∀ fb tr ap, loadFirebase pe env = .ok fb → loadTrading env = .ok tr →
        loadAPI env = .ok ap → loadConfig pe env = .ok ⟨fb, tr, ap⟩)
  ∧ (∀ s, loadConfig pe env = .ok s →
        loadFirebase pe env = .ok s.firebase
      ∧ loadTrading env = .ok s.trading
      ∧ loadAPI env = .ok s.api) := by
  refine ⟨fun e h => ?_, fun fb e h1 h2 => ?_, fun fb tr e h1 h2 h3 => ?_,
    fun fb tr ap h1 h2 h3 => ?_, fun s h => ?_⟩
  · simp only [loadConfig, h]
  · simp only [loadConfig, h1, h2]
  · simp only [loadConfig, h1, h2, h3]
  · simp only [loadConfig, h1, h2, h3]
  · unfold loadConfig at h
    repeat' split at h
    all_goals cases h
    all_goals simp_all

/-- Witness for C5: a failing storage loader fails the aggregate with the
same error; with all three loaders succeeding the aggregate composes
their results. -/
theorem C5_witness :
    loadConfig (fun _ => false) (fun _ => none)
        = .error .MissingCredentialFile
  ∧ loadConfig (fun _ => true)
        (fun k => if k = "FIREBASE_PROJECT_ID" then some "proj" else none)
      = .ok ⟨⟨"proj", "./firebase_credentials.json", "sentiment_trading"⟩,
             ⟨.PAPER, 10000, mkRat 1 50, mkRat 1 20, mkRat 7 10, 300⟩,
             ⟨none, none, 60, 3, 30⟩⟩ :=
  ⟨(C5_aggregate_failfast _ _).1 .MissingCredentialFile (by decide),
   (C5_aggregate_failfast _ _).2.2.2.1
     ⟨"proj", "./firebase_credentials.json", "sentiment_trading"⟩
     ⟨.PAPER, 10000, mkRat 1 50, mkRat 1 20, mkRat 7 10, 300⟩
     ⟨none, none, 60, 3, 30⟩ (by decide) (by decide) (by decide)⟩

/-- Claim C6: `has_twitter_access` (resp. `has_news_access`) is true iff
the corresponding credential is present and non-empty; an absent
`TWITTER_BEARER_TOKEN` key yields an unset credential and a false
predicate, and the API loader can only ever fail over a numeric coercion,
never over an absent credential. -/
theorem C6_credential_predicates (c : APIConfig) (env : Env) :
    (c.has_twitter_access = true ↔
        ∃ s, c.twitter_bearer_token = some s ∧ s ≠ "")
  ∧ (c.has_news_access = true ↔ ∃ s, c.news_api_key = some s ∧ s ≠ "")
  ∧ (env "TWITTER_BEARER_TOKEN" = none → ∀ a, loadAPI env = .ok a →
        a.twitter_bearer_token = none ∧ a.has_twitter_access = false)
  ∧ (∀ e, loadAPI env = .error e → e = .InvalidNumericValue) := by
  refine ⟨?_, ?_, fun h a ha => ?_, fun e he => ?_⟩
  · cases ht : c.twitter_bearer_token with
    | none => simp [APIConfig.has_twitter_access, ht]
    | some s => simp [APIConfig.has_twitter_access, ht]
  · cases hn : c.news_api_key with
    | none => simp [APIConfig.has_news_access, hn]
    | some s => simp [APIConfig.has_news_access, hn]
  · have inv := loadAPI_ok_inv env a ha
    have htok : a.twitter_bearer_token = none := by rw [inv.1, h]
    exact ⟨htok, by simp [APIConfig.has_twitter_access, htok]⟩
  · unfold loadAPI at he
    repeat' split at he
    all_goals cases he
    all_goals rfl

/-- Witness for C6: a non-empty token gives access; with no token set the
loaded credential is unset and access is denied. -/
theorem C6_witness :
    (⟨some "tok", none, 60, 3, 30⟩ : APIConfig).has_twitter_access = true
  ∧ (⟨none, none, 60, 3, 30⟩ : APIConfig).twitter_bearer_token = none
  ∧ (⟨none, none, 60, 3, 30⟩ : APIConfig).has_twitter_access = false :=
  ⟨((C6_credential_predicates ⟨some "tok", none, 60, 3, 30⟩
      (fun _ => none)).1).mpr ⟨"tok", rfl, by decide⟩,
   ((C6_credential_predicates ⟨none, none, 60, 3, 30⟩
      (fun _ => none)).2.2.1 rfl ⟨none, none, 60, 3, 30⟩ (by decide)).1,
   ((C6_credential_predicates ⟨none, none, 60, 3, 30⟩
      (fun _ => none)).2.2.1 rfl ⟨none, none, 60, 3, 30⟩ (by decide)).2⟩

/-- Claim C8: with a resolvable trading mode, the trading loader fails
with `InvalidNumericValue` exactly when one of its five numeric strings
does not coerce; the API loader fails with `InvalidNumericValue` exactly
when one of its three integer strings does not coerce; and every numeric
field whose key is absent comes out as its documented default. -/
theorem C8_numeric_fields (env : Env) :
    (loadTrading env = .error .InvalidNumericValue ↔
        ((∃ mode, tradingModeFromName (getenvD env "TRADING_MODE" "PAPER")
            = some mode)
          ∧ (parseFloat (getenvD env "MAX_POSITION_SIZE" "10000") = none
            ∨ parseFloat (getenvD env "STOP_LOSS_PCT" "0.02") = none
            ∨ parseFloat (getenvD env "TAKE_PROFIT_PCT" "0.05") = none
            ∨ parseFloat (getenvD env "SENTIMENT_THRESHOLD" "0.7") = none
            ∨ parseInt (getenvD env "COOLOFF_PERIOD" "300") = none)))
  ∧ (loadAPI env = .error .InvalidNumericValue ↔
        (parseInt (getenvD env "RATE_LIMIT_PER_MINUTE" "60") = none
          ∨ parseInt (getenvD env "RETRY_ATTEMPTS" "3") = none
          ∨ parseInt (getenvD env "TIMEOUT_SECONDS" "30") = none))
  ∧ (∀ c, loadTrading env = .ok c →
        (env "MAX_POSITION_SIZE" = none → c.max_position_size = 10000)
      ∧ (env "STOP_LOSS_PCT" = none → c.stop_loss_pct = 1/50)
      ∧ (env "TAKE_PROFIT_PCT" = none → c.take_profit_pct = 1/20)
      ∧ (env "SENTIMENT_THRESHOLD" = none → c.sentiment_threshold = 7/10)
      ∧ (env "COOLOFF_PERIOD" = none → c.cooloff_period = 300))
  ∧ (∀ a, loadAPI env = .ok a →
        (env "RATE_LIMIT_PER_MINUTE" = none → a.rate_limit_per_minute = 60)
      ∧ (env "RETRY_ATTEMPTS" = none → a.retry_attempts = 3)
      ∧ (env "TIMEOUT_SECONDS" = none → a.timeout_seconds = 30)) := by
  refine ⟨?_, ?_, fun c hc => ?_, fun a ha => ?_⟩
  · constructor
    · intro h
      unfold loadTrading at h
      repeat' split at h
      all_goals cases h
      all_goals simp_all
    · rintro ⟨⟨mode, hm⟩, hbad⟩
      unfold loadTrading
      rw [hm]
      rcases h1 : parseFloat (getenvD env "MAX_POSITION_SIZE" "10000") with
        _ | mps
      · rfl
      rcases h2 : parseFloat (getenvD env "STOP_LOSS_PCT" "0.02") with _ | slp
      · rfl
      rcases h3 : parseFloat (getenvD env "TAKE_PROFIT_PCT" "0.05") with
        _ | tpp
      · rfl
      rcases h4 : parseFloat (getenvD env "SENTIMENT_THRESHOLD" "0.7") with
        _ | st
      · rfl
      rcases h5 : parseInt (getenvD env "COOLOFF_PERIOD" "300") with _ | cp
      · rfl
      simp_all
  · constructor
    · intro h
      unfold loadAPI at h
      repeat' split at h
      all_goals cases h
      all_goals simp_all
    · intro hbad
      unfold loadAPI
      rcases h1 : parseInt (getenvD env "RATE_LIMIT_PER_MINUTE" "60") with
        _ | rl
      · rfl
      rcases h2 : parseInt (getenvD env "RETRY_ATTEMPTS" "3") with _ | ra
      · rfl
      rcases h3 : parseInt (getenvD env "TIMEOUT_SECONDS" "30") with _ | ts
      · rfl
      simp_all
  · have inv := loadTrading_ok_inv env c hc
    refine ⟨fun hk => ?_, fun hk => ?_, fun hk => ?_, fun hk => ?_,
      fun hk => ?_⟩
    · have h := inv.2.1
      simp only [getenvD, hk, Option.getD_none] at h
      rw [show parseFloat "10000" = some (10000 : ℚ) from by decide] at h
      exact (Option.some.inj h).symm
    · have h := inv.2.2.1
      simp only [getenvD, hk, Option.getD_none] at h
      rw [show parseFloat "0.02" = some (mkRat 2 100) from by decide] at h
      rw [← Option.some.inj h, Rat.mkRat_eq_div]
      norm_num
    · have h := inv.2.2.2.1
      simp only [getenvD, hk, Option.getD_none] at h
      rw [show parseFloat "0.05" = some (mkRat 5 100) from by decide] at h
      rw [← Option.some.inj h, Rat.mkRat_eq_div]
      norm_num
    · have h := inv.2.2.2.2.1
      simp only [getenvD, hk, Option.getD_none] at h
      rw [show parseFloat "0.7" = some (mkRat 7 10) from by decide] at h
      rw [← Option.some.inj h, Rat.mkRat_eq_div]
      norm_num
    · have h := inv.2.2.2.2.2
      simp only [getenvD, hk, Option.getD_none] at h
      rw [show parseInt "300" = some (300 : Int) from by decide] at h
      exact (Option.some.inj h).symm
  · have inv := loadAPI_ok_inv env a ha
    refine ⟨fun hk => ?_, fun hk => ?_, fun hk => ?_⟩
    · have h := inv.2.2.1
      simp only [getenvD, hk, Option.getD_none] at h
      rw [show parseInt "60" = some (60 : Int) from by decide] at h
      exact (Option.some.inj h).symm
    · have h := inv.2.2.2.1
      simp only [getenvD, hk, Option.getD_none] at h
      rw [show parseInt "3" = some (3 : Int) from by decide] at h
      exact (Option.some.inj h).symm
    · have h := inv.2.2.2.2
      simp only [getenvD, hk, Option.getD_none] at h
      rw [show parseInt "30" = some (30 : Int) from by decide] at h
      exact (Option.some.inj h).symm

/-- Witness for C8: a non-numeric `STOP_LOSS_PCT` fails the trading
loader, a non-numeric `RATE_LIMIT_PER_MINUTE` fails the API loader, and
with an empty environment every numeric field takes its default. -/
theorem C8_witness :
    loadTrading (fun k => if k = "STOP_LOSS_PCT" then some "abc" else none)
        = .error .InvalidNumericValue
  ∧ loadAPI (fun k => if k = "RATE_LIMIT_PER_MINUTE" then some "x" else none)
        = .error .InvalidNumericValue
  ∧ ((⟨.PAPER, 10000, mkRat 1 50, mkRat 1 20, mkRat 7 10, 300⟩ :
        TradingConfig).stop_loss_pct = 1/50
     ∧ (⟨none, none, 60, 3, 30⟩ : APIConfig).rate_limit_per_minute = 60) :=
  ⟨((C8_numeric_fields
      (fun k => if k = "STOP_LOSS_PCT" then some "abc" else none)).1).mpr
      ⟨⟨.PAPER, by decide⟩, Or.inr (Or.inl (by decide))⟩,
   ((C8_numeric_fields
      (fun k => if k = "RATE_LIMIT_PER_MINUTE" then some "x" else none)).2.1).mpr
      (Or.inl (by decide)),
   ((C8_numeric_fields (fun _ => none)).2.2.1
      ⟨.PAPER, 10000, mkRat 1 50, mkRat 1 20, mkRat 7 10, 300⟩
      (by decide)).2.1 rfl,
   ((C8_numeric_fields (fun _ => none)).2.2.2 ⟨none, none, 60, 3, 30⟩
      (by decide)).1 rfl⟩

/-- Claim C9: loading is deterministic in the snapshot: two aggregate
constructions from the same environment and filesystem snapshot agree in
every field of every sub-config. -/
theorem C9_deterministic_loading (pe : String → Bool) (env : Env)
    (s1 s2 : SentimentTradingConfig)
    (h1 : loadConfig pe env = .ok s1) (h2 : loadConfig pe env = .ok s2) :
    s1.firebase.project_id = s2.firebase.project_id
  ∧ s1.firebase.credentials_path = s2.firebase.credentials_path
  ∧ s1.firebase.collection_name = s2.firebase.collection_name
  ∧ s1.trading.mode = s2.trading.mode
  ∧ s1.trading.max_position_size = s2.trading.max_position_size
  ∧ s1.trading.stop_loss_pct = s2.trading.stop_loss_pct
  ∧ s1.trading.take_profit_pct = s2.trading.take_profit_pct
  ∧ s1.trading.sentiment_threshold = s2.trading.sentiment_threshold
  ∧ s1.trading.cooloff_period = s2.trading.cooloff_period
  ∧ s1.api.twitter_bearer_token = s2.api.twitter_bearer_token
  ∧ s1.api.news_api_key = s2.api.news_api_key
  ∧ s1.api.rate_limit_per_minute = s2.api.rate_limit_per_minute
  ∧ s1.api.retry_attempts = s2.api.retry_attempts
  ∧ s1.api.timeout_seconds = s2.api.timeout_seconds := by
  have h : s1 = s2 := Except.ok.inj (h1.symm.trans h2)
  subst h
  simp

/-- Witness for C9: two loads from one concrete snapshot, field-wise
equal. -/
theorem C9_witness :
    (⟨⟨"proj", "./firebase_credentials.json", "sentiment_trading"⟩,
      ⟨.PAPER, 10000, mkRat 1 50, mkRat 1 20, mkRat 7 10, 300⟩,
      ⟨none, none, 60, 3, 30⟩⟩ :
        SentimentTradingConfig).trading.stop_loss_pct
      = (⟨⟨"proj", "./firebase_credentials.json", "sentiment_trading"⟩,
          ⟨.PAPER, 10000, mkRat 1 50, mkRat 1 20, mkRat 7 10, 300⟩,
          ⟨none, none, 60, 3, 30⟩⟩ :
            SentimentTradingConfig).trading.stop_loss_pct :=
  (C9_deterministic_loading (fun _ => true)
    (fun k => if k = "FIREBASE_PROJECT_ID" then some "proj" else none)
    _ _ (by decide) (by decide)).2.2.2.2.2.1

/-- Claim C10: the trading-mode lookup matches member names exactly and
case-sensitively: a string is accepted iff it is one of `"PAPER"`,
`"LIVE"`, `"BACKTEST"` (mapping to the member of that name), while the
lowercase serialized enum values — and hence any other casing — are
rejected as unknown modes. -/
theorem C10_mode_lookup_case_sensitive :
    (∀ s m, tradingModeFromName s = some m ↔
        ((s = "PAPER" ∧ m = .PAPER) ∨ (s = "LIVE" ∧ m = .LIVE) ∨
          (s = "BACKTEST" ∧ m = .BACKTEST)))
  ∧ (∀ m : TradingMode, tradingModeFromName m.value = none)
  ∧ (∀ env : Env, ∀ v, env "TRADING_MODE" = some v →
        (v = "paper" ∨ v = "live" ∨ v = "backtest") →
        loadTrading env = .error .UnknownMode) := by
  refine ⟨fun s m => ?_, fun m => ?_, fun env v hv hcase => ?_⟩
  · unfold tradingModeFromName
    split_ifs with hP hL hB <;> cases m <;> simp_all
  · cases m <;> decide
  · have hm : tradingModeFromName (getenvD env "TRADING_MODE" "PAPER")
        = none := by
      rcases hcase with h | h | h <;> simp [getenvD, hv, h] <;> decide
    simp only [loadTrading, hm]

/-- Witness for C10: the exact member name is accepted, its lowercase
serialized value is rejected, and `TRADING_MODE=live` fails the loader
with `UnknownMode`. -/
theorem C10_witness :
    tradingModeFromName "PAPER" = some .PAPER
  ∧ tradingModeFromName "paper" = none
  ∧ loadTrading (fun k => if k = "TRADING_MODE" then some "live" else none)
      = .error .UnknownMode :=
  ⟨(C10_mode_lookup_case_sensitive.1 "PAPER" .PAPER).mpr
      (Or.inl ⟨rfl, rfl⟩),
   C10_mode_lookup_case_sensitive.2.1 .PAPER,
   C10_mode_lookup_case_sensitive.2.2 _ "live" (by decide)
      (Or.inr (Or.inl rfl))⟩
